import Mathlib

/-!
Verification of the Delivery-Growth-Analyzer scoring and estimation logic.

The definitions below are a shallow embedding of the deterministic functions
of `src/app.py`: `estimate_revenue_loss`, `score_gbp_profile`,
`score_website_basic` and `call_llm_safe`.  Python floats are embedded as
rationals (`ℚ`), Python dict fields as `Option`-typed structure fields (with
Python truthiness made explicit), and the external HTML parser / HTTP client
as explicit function parameters.
-/

namespace App

/-! ## Revenue-loss estimator (src/app.py, lines 535-562) -/

/-- Embedding of `estimate_revenue_loss`.  The channel selects fixed CTR and
conversion constants, the rank bucket selects the `current_factor`, and the
result is `(ideal_customers - current_customers) * avg_order_value`. -/
def estimate_revenue_loss (monthly_search_volume : ℤ) (rank_bucket : String)
    (avg_order_value : ℚ) (channel : String := "dine-in") : ℚ :=
  let ctr : ℚ := if channel = "delivery" then 18/100 else 12/100
  let conv : ℚ := if channel = "delivery" then 35/100 else 25/100
  let ideal_customers : ℚ := monthly_search_volume * ctr * conv
  let current_factor : ℚ :=
    if rank_bucket = "top3" then 1
    else if rank_bucket = "4-10" then 4/10
    else if rank_bucket = "11+" then 1/10
    else 0
  let current_customers := ideal_customers * current_factor
  let potential_extra_customers := ideal_customers - current_customers
  potential_extra_customers * avg_order_value

/-- The spec-side revenue-loss formula: `ideal_customers = volume * ctr * conv`
and loss `= (ideal - ideal * factor) * aov`, for a given scaling `factor`.
This is the formula the spec describes; the claims about refinement compare
it with `estimate_revenue_loss`. -/
def spec_loss_formula (monthly_search_volume : ℤ) (avg_order_value : ℚ)
    (channel : String) (factor : ℚ) : ℚ :=
  let ctr : ℚ := if channel = "delivery" then 18/100 else 12/100
  let conv : ℚ := if channel = "delivery" then 35/100 else 25/100
  let ideal_customers : ℚ := monthly_search_volume * ctr * conv
  (ideal_customers - ideal_customers * factor) * avg_order_value

/-- The scaling factor the code assigns to each rank bucket: a 4-way
classification, with `0.0` on the fall-through branch. -/
def bucketFactor (rank_bucket : String) : ℚ :=
  if rank_bucket = "top3" then 1
  else if rank_bucket = "4-10" then 4/10
  else if rank_bucket = "11+" then 1/10
  else 0

lemma estimate_eq_formula (v : ℤ) (b : String) (a : ℚ) (ch : String) :
    estimate_revenue_loss v b a ch = spec_loss_formula v a ch (bucketFactor b) := rfl

lemma formula_antitone (v : ℤ) (a : ℚ) (ch : String) (f g : ℚ) (hfg : f ≤ g)
    (hv : (0:ℚ) ≤ (v:ℚ)) (ha : 0 ≤ a) :
    spec_loss_formula v a ch g ≤ spec_loss_formula v a ch f := by
  unfold spec_loss_formula
  by_cases hch : ch = "delivery" <;> simp [hch] <;>
    nlinarith [mul_nonneg (sub_nonneg.2 hfg) (mul_nonneg hv ha)]

lemma formula_nonneg (v : ℤ) (a : ℚ) (ch : String) (f : ℚ) (hf : f ≤ 1)
    (hv : (0:ℚ) ≤ (v:ℚ)) (ha : 0 ≤ a) :
    0 ≤ spec_loss_formula v a ch f := by
  unfold spec_loss_formula
  by_cases hch : ch = "delivery" <;> simp [hch] <;>
    nlinarith [mul_nonneg (sub_nonneg.2 hf) (mul_nonneg hv ha)]

lemma formula_le_ideal (v : ℤ) (a : ℚ) (ch : String) (f : ℚ) (hf : 0 ≤ f)
    (hv : (0:ℚ) ≤ (v:ℚ)) (ha : 0 ≤ a) :
    spec_loss_formula v a ch f ≤
      (v : ℚ) * (if ch = "delivery" then 18/100 else 12/100) *
        (if ch = "delivery" then 35/100 else 25/100) * a := by
  unfold spec_loss_formula
  by_cases hch : ch = "delivery" <;> simp [hch] <;>
    nlinarith [mul_nonneg (mul_nonneg hv hf) ha]

/-- Claim C1 (counterexample): at `monthly_search_volume = 100`,
`rank_bucket = "none"`, `avg_order_value = 10`, `channel = "dine-in"`, the
code returns `30`, which none of the three spec factors `1.0 / 0.4 / 0.1`
can reproduce (they give `0 / 18 / 27`): in the fall-through bucket the
code scales by the constant `0.0`, absent from the claim's factor set. -/
theorem c1_counterexample :
    ¬ (estimate_revenue_loss 100 "none" 10 "dine-in" =
          spec_loss_formula 100 10 "dine-in" 1 ∨
        estimate_revenue_loss 100 "none" 10 "dine-in" =
          spec_loss_formula 100 10 "dine-in" (4/10) ∨
        estimate_revenue_loss 100 "none" 10 "dine-in" =
          spec_loss_formula 100 10 "dine-in" (1/10)) := by
  have h : estimate_revenue_loss 100 "none" 10 "dine-in" = 30 := by
    rw [estimate_eq_formula]
    simp [spec_loss_formula, bucketFactor]
    norm_num
  have h1 : spec_loss_formula 100 10 "dine-in" 1 = 0 := by
    simp [spec_loss_formula]
  have h2 : spec_loss_formula 100 10 "dine-in" (4/10) = 18 := by
    simp [spec_loss_formula]
    norm_num
  have h3 : spec_loss_formula 100 10 "dine-in" (1/10) = 27 := by
    simp [spec_loss_formula]
    norm_num
  rw [h, h1, h2, h3]
  norm_num

/-- Claim C1 (amended): for every rank bucket, channel, volume and average
order value, `estimate_revenue_loss` returns exactly the spec formula
`(ideal - ideal * factor) * aov`, where the factor is `1.0`, `0.4`, `0.1`
or `0.0`, keyed off the 4-way classification `top3 / 4-10 / 11+ / other`. -/
theorem c1_amended_formula (monthly_search_volume : ℤ) (rank_bucket : String)
    (avg_order_value : ℚ) (channel : String) :
    estimate_revenue_loss monthly_search_volume rank_bucket avg_order_value
        channel =
      spec_loss_formula monthly_search_volume avg_order_value channel
        (if rank_bucket = "top3" then 1
         else if rank_bucket = "4-10" then 4/10
         else if rank_bucket = "11+" then 1/10
         else 0) := by
  rfl

/-- Claim C2: for fixed nonnegative volume and average order value and any
channel, the estimated loss is monotonically non-increasing as the rank
bucket improves along `none → "11+" → "4-10" → "top3"`. -/
theorem c2_loss_monotone (v : ℤ) (a : ℚ) (channel : String)
    (hv : 0 ≤ v) (ha : 0 ≤ a) :
    estimate_revenue_loss v "11+" a channel ≤
        estimate_revenue_loss v "none" a channel ∧
      estimate_revenue_loss v "4-10" a channel ≤
        estimate_revenue_loss v "11+" a channel ∧
      estimate_revenue_loss v "top3" a channel ≤
        estimate_revenue_loss v "4-10" a channel := by
  have hv' : (0:ℚ) ≤ (v:ℚ) := by exact_mod_cast hv
  simp only [estimate_eq_formula]
  refine ⟨formula_antitone v a channel _ _ ?_ hv' ha,
    formula_antitone v a channel _ _ ?_ hv' ha,
    formula_antitone v a channel _ _ ?_ hv' ha⟩ <;>
    simp [bucketFactor] <;> norm_num

/-- Witness for C2 at volume 100, aov 10, channel `dine-in`. -/
theorem c2_loss_monotone_witness :
    (0:ℤ) ≤ 100 ∧ (0:ℚ) ≤ 10 ∧
      (estimate_revenue_loss 100 "11+" 10 "dine-in" ≤
          estimate_revenue_loss 100 "none" 10 "dine-in" ∧
        estimate_revenue_loss 100 "4-10" 10 "dine-in" ≤
          estimate_revenue_loss 100 "11+" 10 "dine-in" ∧
        estimate_revenue_loss 100 "top3" 10 "dine-in" ≤
          estimate_revenue_loss 100 "4-10" 10 "dine-in") :=
  ⟨by decide, by decide, c2_loss_monotone 100 10 "dine-in" (by decide) (by decide)⟩

/-- Claim C5: for every volume, average order value and channel, the bucket
`"top3"` (factor `1.0`, so current customers equal ideal customers) gives an
estimated loss of zero. -/
theorem c5_top3_zero_loss (v : ℤ) (a : ℚ) (channel : String) :
    estimate_revenue_loss v "top3" a channel = 0 := by
  rw [estimate_eq_formula]
  simp [spec_loss_formula, bucketFactor]

/-- Claim C10: for nonnegative volume and average order value, any rank
bucket and any channel, the estimated loss lies between `0` and
`volume * ctr * conv * aov` (the scaling factor always lies in `[0, 1]`). -/
theorem c10_loss_bounds (v : ℤ) (bucket : String) (a : ℚ) (channel : String)
    (hv : 0 ≤ v) (ha : 0 ≤ a) :
    0 ≤ estimate_revenue_loss v bucket a channel ∧
      estimate_revenue_loss v bucket a channel ≤
        (v : ℚ) * (if channel = "delivery" then 18/100 else 12/100) *
          (if channel = "delivery" then 35/100 else 25/100) * a := by
  have hv' : (0:ℚ) ≤ (v:ℚ) := by exact_mod_cast hv
  have hb : 0 ≤ bucketFactor bucket ∧ bucketFactor bucket ≤ 1 := by
    unfold bucketFactor
    split_ifs <;> norm_num
  rw [estimate_eq_formula]
  exact ⟨formula_nonneg v a channel _ hb.2 hv' ha,
    formula_le_ideal v a channel _ hb.1 hv' ha⟩

/-- Witness for C10 at volume 100, bucket `4-10`, aov 10, channel
`delivery`. -/
theorem c10_loss_bounds_witness :
    (0:ℤ) ≤ 100 ∧ (0:ℚ) ≤ 10 ∧
      (0 ≤ estimate_revenue_loss 100 "4-10" 10 "delivery" ∧
        estimate_revenue_loss 100 "4-10" 10 "delivery" ≤
          (100 : ℚ) * (if ("delivery" : String) = "delivery" then 18/100 else 12/100) *
            (if ("delivery" : String) = "delivery" then 35/100 else 25/100) * 10) :=
  ⟨by decide, by decide, c10_loss_bounds 100 "4-10" 10 "delivery" (by decide) (by decide)⟩

/-! ## Google Business Profile scorer (src/app.py, lines 410-461) -/

/-- Python truthiness of an optional string field: `bool(x)` is `False`
exactly for a missing value (`None`) and the empty string. -/
def truthyStr : Option String → Bool
  | some s => s != ""
  | none => false

/-- The `opening_hours` sub-dict of a place record. -/
structure OpeningHours where
  weekday_text : List String := []
  open_now : Option Bool := none
deriving DecidableEq

/-- A place-details record: the dict fields `score_gbp_profile` reads.
Missing dict keys are `none` / the Python defaults used by `.get`. -/
structure Place where
  name : Option String := none
  formatted_address : Option String := none
  formatted_phone_number : Option String := none
  opening_hours : Option OpeningHours := none
  website : Option String := none
  rating : Option ℚ := none
  user_ratings_total : Option ℤ := none
  types : List String := []
  price_level : Option ℤ := none
  photos : List ℕ := []
deriving DecidableEq

/-- The result dict of a checklist scorer: the total and the ordered
`checks` mapping of check name to `(points, passed)`. -/
structure GbpResult where
  score : ℕ
  checks : List (String × ℕ × Bool)
deriving DecidableEq

/-- Embedding of `score_gbp_profile`: eight independent checks, each adding
a fixed number of points when its condition holds. -/
def score_gbp_profile (place : Place) : GbpResult :=
  let has_name := truthyStr place.name
  let has_address := truthyStr place.formatted_address
  let name_addr_ok := has_name && has_address
  let p1 : ℕ := if name_addr_ok then 4 else 0
  let has_phone := truthyStr place.formatted_phone_number
  let p2 : ℕ := if has_phone then 4 else 0
  let oh := place.opening_hours.getD {}
  let has_hours := !oh.weekday_text.isEmpty || oh.open_now.isSome
  let p3 : ℕ := if has_hours then 4 else 0
  let has_website := truthyStr place.website
  let p4 : ℕ := if has_website then 4 else 0
  let has_reviews := place.rating.isSome && decide (10 ≤ place.user_ratings_total.getD 0)
  let p5 : ℕ := if has_reviews then 6 else 0
  let has_category := place.types.any (fun t => t != "point_of_interest" && t != "")
  let p6 : ℕ := if has_category then 6 else 0
  let has_price_level := place.price_level.isSome
  let p7 : ℕ := if has_price_level then 4 else 0
  let has_photos := decide (0 < place.photos.length)
  let p8 : ℕ := if has_photos then 8 else 0
  { score := p1 + p2 + p3 + p4 + p5 + p6 + p7 + p8,
    checks := [("名称/地址完整", p1, name_addr_ok), ("电话", p2, has_phone),
      ("营业时间", p3, has_hours), ("网站链接", p4, has_website),
      ("评分 & ≥10条评论", p5, has_reviews), ("类别设置", p6, has_category),
      ("价格区间", p7, has_price_level), ("照片/图片", p8, has_photos)] }

/-- The example place record of the spec's scenario: every field populated
except `opening_hours`, which the example omits. -/
def examplePlace : Place :=
  { name := some "X", formatted_address := some "1 Main St",
    formatted_phone_number := some "555-1234", rating := some (9/2 : ℚ),
    user_ratings_total := some 20, website := some "http://x.com",
    types := ["restaurant"], price_level := some 2, photos := [1] }

/-- Claim C3 (counterexample): on the spec's example place record the score
is not `40`: the record carries no `opening_hours`, so the opening-hours
check fails and only 36 points are awarded. -/
theorem c3_counterexample : (score_gbp_profile examplePlace).score ≠ 40 := by
  decide

/-- Claim C3 (amended): on the spec's example place record the score is
`36`: every check passes except the opening-hours check, which fails
because the record lacks `opening_hours`. -/
theorem c3_amended_score :
    (score_gbp_profile examplePlace).score = 36 ∧
      (score_gbp_profile examplePlace).checks =
        [("名称/地址完整", 4, true), ("电话", 4, true), ("营业时间", 0, false),
          ("网站链接", 4, true), ("评分 & ≥10条评论", 6, true),
          ("类别设置", 6, true), ("价格区间", 4, true), ("照片/图片", 8, true)] := by
  decide

/-- Claim C6: a place record without `website` scores 0 on the website-link
check, and adding a (non-empty) website value to the otherwise-identical
record raises the total by exactly that check's weight (4 points), leaving
every other check entry unchanged. -/
theorem c6_website_delta (p : Place) (w : String)
    (hp : p.website = none) (hw : w ≠ "") :
    (score_gbp_profile { p with website := some w }).score =
        (score_gbp_profile p).score + 4 ∧
      (score_gbp_profile p).checks[3]? = some ("网站链接", 0, false) ∧
      (score_gbp_profile { p with website := some w }).checks =
        (score_gbp_profile p).checks.set 3 ("网站链接", 4, true) := by
  refine ⟨?_, ?_, ?_⟩
  · simp [score_gbp_profile, hp, truthyStr, hw]
    omega
  · simp [score_gbp_profile, hp, truthyStr]
  · simp [score_gbp_profile, hp, truthyStr, hw]

/-- Witness for C6: the empty place record against the same record with a
website. -/
theorem c6_website_delta_witness :
    (({} : Place).website = none) ∧ ("http://x.com" : String) ≠ "" ∧
      ((score_gbp_profile { ({} : Place) with website := some "http://x.com" }).score =
          (score_gbp_profile ({} : Place)).score + 4 ∧
        (score_gbp_profile ({} : Place)).checks[3]? = some ("网站链接", 0, false) ∧
        (score_gbp_profile { ({} : Place) with website := some "http://x.com" }).checks =
          (score_gbp_profile ({} : Place)).checks.set 3 ("网站链接", 4, true)) :=
  ⟨by decide, by decide,
    c6_website_delta ({} : Place) "http://x.com" (by decide) (by decide)⟩

/-! ## Website scorer (src/app.py, lines 464-532)

The HTML parsing done by BeautifulSoup is external-library behaviour; it is
embedded as an explicit `parse` function producing the four values the
scorer reads from the soup (title string, meta-description content, H1 text
and the whitespace-joined page text).  The string operations the scorer
performs on those values are embedded below as executable list functions
mirroring the Python semantics. -/

/-- `hay.listStartsWith needle`: the second list is a leading segment of the
first (Python `str.startswith`, used to search for substrings). -/
def listStartsWith : List Char → List Char → Bool
  | _, [] => true
  | [], _ :: _ => false
  | a :: as, b :: bs => a == b && listStartsWith as bs

/-- Python `needle in hay` on character lists. -/
def listContainsSub (needle : List Char) : List Char → Bool
  | [] => needle.isEmpty
  | c :: rest => listStartsWith (c :: rest) needle || listContainsSub needle rest

/-- Python `needle in hay` on strings. -/
def strContainsSub (hay needle : String) : Bool :=
  listContainsSub needle.toList hay.toList

/-- Python `str.lower()`. -/
def lowerStr (s : String) : String := ⟨s.toList.map Char.toLower⟩

/-- Python `str.strip()`: drop leading and trailing whitespace. -/
def pyStrip (s : String) : String :=
  ⟨((s.toList.dropWhile Char.isWhitespace).reverse.dropWhile
      Char.isWhitespace).reverse⟩

/-- Accumulator pass behind `pyWords`. -/
def pyWordsAux : List Char → List Char → List String
  | [], acc => if acc.isEmpty then [] else [⟨acc.reverse⟩]
  | c :: cs, acc =>
    if c.isWhitespace then
      if acc.isEmpty then pyWordsAux cs []
      else (⟨acc.reverse⟩ : String) :: pyWordsAux cs []
    else pyWordsAux cs (c :: acc)

/-- Python `str.split()` with no argument: the maximal whitespace-free runs
of the string. -/
def pyWords (s : String) : List String := pyWordsAux s.toList []

/-- The characters CPython's `urlparse` accepts in a URL scheme. -/
def isSchemeChar (c : Char) : Bool :=
  c.isAlphanum || c == '+' || c == '-' || c == '.'

/-- The `scheme` component of CPython's `urlparse`: the lowercased text
before the first `:`, when it is non-empty, starts with a letter and
consists of scheme characters; otherwise the empty string. -/
def urlparse_scheme (url : String) : String :=
  let cs := url.toList
  let pre := cs.takeWhile (fun c => c != ':')
  match pre with
  | [] => ""
  | c :: _ =>
    if pre.length < cs.length && c.isAlpha && pre.all isSchemeChar then
      ⟨pre.map Char.toLower⟩
    else ""

/-- The four values `score_website_basic` reads out of the parsed soup. -/
structure PageDoc where
  titleString : Option String := none
  descContent : Option String := none
  h1Text : Option String := none
  texts : String := ""
deriving DecidableEq

/-- The result dict of `score_website_basic`. -/
structure WebResult where
  score : ℕ
  checks : List (String × ℕ × Bool)
  word_count : ℕ
  title : String
  text_snippet : String
deriving DecidableEq

/-- The cuisine keyword list of the website scorer. -/
def websiteKeywords : List String :=
  ["chinese", "cantonese", "szechuan", "sichuan", "shanghai",
   "dim sum", "noodle", "rice", "dumpling", "hot pot", "bbq"]

/-- Embedding of `score_website_basic`: an early return when the URL or the
HTML is missing (Python-falsy), otherwise seven independent checks. -/
def score_website_basic (parse : String → PageDoc) (url : String)
    (html : Option String) : WebResult :=
  if url = "" ∨ html = none ∨ html = some "" then
    { score := 0, checks := [("无法访问网站", 0, false)],
      word_count := 0, title := "", text_snippet := "" }
  else
    let soup := parse (html.getD "")
    let texts := soup.texts
    let word_count := (pyWords texts).length
    let text_snippet : String := ⟨texts.toList.take 3000⟩
    let title := match soup.titleString with
      | some s => if s = "" then "" else pyStrip s
      | none => ""
    let has_title := title != ""
    let p1 : ℕ := if has_title then 6 else 0
    let has_desc := match soup.descContent with
      | some c => c != ""
      | none => false
    let p2 : ℕ := if has_desc then 6 else 0
    let has_h1 := match soup.h1Text with
      | some t => t != ""
      | none => false
    let p3 : ℕ := if has_h1 then 4 else 0
    let has_sufficient_text := decide (300 ≤ word_count)
    let p4 : ℕ := if has_sufficient_text then 8 else 0
    let has_phone_text := strContainsSub texts "(" || strContainsSub texts ")" ||
      strContainsSub texts "-" || strContainsSub texts "+1"
    let p5 : ℕ := if has_phone_text then 4 else 0
    let kw_hit := websiteKeywords.any fun kw =>
      strContainsSub (lowerStr texts) (lowerStr kw)
    let p6 : ℕ := if kw_hit then 6 else 0
    let has_https := urlparse_scheme url == "https"
    let p7 : ℕ := if has_https then 6 else 0
    { score := p1 + p2 + p3 + p4 + p5 + p6 + p7,
      checks := [("有页面标题（title）", p1, has_title),
        ("有 Meta Description", p2, has_desc), ("有 H1 标题", p3, has_h1),
        ("文本量 ≥ 300 词", p4, has_sufficient_text),
        ("页面上能看到电话", p5, has_phone_text),
        ("文本包含菜品/菜系关键词", p6, kw_hit), ("使用 HTTPS", p7, has_https)],
      word_count := word_count, title := title, text_snippet := text_snippet }

/-- Claim C9: an empty URL or missing HTML makes `score_website_basic`
return the fixed zero-score record, independently of the parser. -/
theorem c9_unreachable_site (parse : String → PageDoc) (url : String)
    (html : Option String) (h : url = "" ∨ html = none) :
    score_website_basic parse url html =
      { score := 0, checks := [("无法访问网站", 0, false)],
        word_count := 0, title := "", text_snippet := "" } := by
  rcases h with h | h <;> simp [score_website_basic, h]

/-- Witness for C9 at an empty URL with present HTML. -/
theorem c9_unreachable_site_witness :
    (("" : String) = "" ∨ (some "<html></html>" : Option String) = none) ∧
      score_website_basic (fun _ => {}) "" (some "<html></html>") =
        { score := 0, checks := [("无法访问网站", 0, false)],
          word_count := 0, title := "", text_snippet := "" } :=
  ⟨Or.inl rfl,
    c9_unreachable_site (fun _ => {}) "" (some "<html></html>") (Or.inl rfl)⟩

/-- Claim C4: for both checklist scorers, the returned total equals the sum
of the per-check point values in the returned `checks` mapping, and lies in
`[0, 40]` (scores are naturals, so the lower bound is implicit). -/
theorem c4_score_eq_sum_of_checks :
    (∀ p : Place,
        (score_gbp_profile p).score =
            ((score_gbp_profile p).checks.map fun c => c.2.1).sum ∧
          (score_gbp_profile p).score ≤ 40) ∧
      (∀ (parse : String → PageDoc) (url : String) (html : Option String),
        (score_website_basic parse url html).score =
            ((score_website_basic parse url html).checks.map fun c => c.2.1).sum ∧
          (score_website_basic parse url html).score ≤ 40) := by
  have hite : ∀ (c : Prop) (inst : Decidable c) (n : ℕ), (if c then n else 0) ≤ n := by
    intro c inst n
    split <;> omega
  constructor
  · intro p
    simp only [score_gbp_profile]
    constructor
    · simp only [List.map_cons, List.map_nil, List.sum_cons, List.sum_nil]
      omega
    · exact le_trans
        (add_le_add (add_le_add (add_le_add (add_le_add (add_le_add (add_le_add
          (add_le_add (hite _ _ 4) (hite _ _ 4)) (hite _ _ 4)) (hite _ _ 4))
          (hite _ _ 6)) (hite _ _ 6)) (hite _ _ 4)) (hite _ _ 8)) (by norm_num)
  · intro parse url html
    by_cases h : url = "" ∨ html = none ∨ html = some ""
    · simp [score_website_basic, h]
    · simp only [score_website_basic, if_neg h]
      constructor
      · simp only [List.map_cons, List.map_nil, List.sum_cons, List.sum_nil]
        omega
      · exact le_trans
          (add_le_add (add_le_add (add_le_add (add_le_add (add_le_add
            (add_le_add (hite _ _ 6) (hite _ _ 6)) (hite _ _ 4)) (hite _ _ 8))
            (hite _ _ 4)) (hite _ _ 6)) (hite _ _ 6)) (by norm_num)

/-! ## Pricing comparison (referenced by the spec; not present in src/) -/

/-- Result of the pricing comparison: the average delivery-over-dine-in
markup and the two penalty flags. -/
structure PricingResult where
  avg_markup : ℚ
  too_low : Bool
  too_high : Bool
deriving DecidableEq

/-- Modelled from the spec: `compute_pricing_score` is named by the spec
but absent from `src/app.py`.  Following the spec's words, a menu is a list
of `(name, price)` items per channel; items present on both channels are
matched by name, each matched pair contributes the markup
`delivery_price / dine_in_price - 1`, those markups are averaged, and the
"too low" / "too high" penalty branches trigger exactly when the average
markup falls outside `[0.10, 0.35]`. -/
def compute_pricing_score (dine_in delivery : List (String × ℚ)) :
    PricingResult :=
  let markups := dine_in.filterMap fun it =>
    (delivery.lookup it.1).map fun dp => dp / it.2 - 1
  let avg : ℚ := if markups.length = 0 then 0 else markups.sum / markups.length
  { avg_markup := avg,
    too_low := decide (avg < 10/100),
    too_high := decide (avg > 35/100) }

lemma lookup_map_scaled (l : List (String × ℚ)) (hnodup : (l.map Prod.fst).Nodup)
    (it : String × ℚ) (hit : it ∈ l) :
    (l.map fun x => (x.1, (6/5 : ℚ) * x.2)).lookup it.1 = some ((6/5 : ℚ) * it.2) := by
  induction l with
  | nil => cases hit
  | cons hd tl ih =>
    simp only [List.map_cons, List.nodup_cons, List.mem_map] at hnodup
    rcases List.mem_cons.1 hit with h | h
    · subst h
      simp [List.lookup]
    · have hne : hd.1 ≠ it.1 := by
        intro heq
        exact hnodup.1 ⟨it, h, heq.symm⟩
      have hbeq : (it.1 == hd.1) = false := by
        simp [hne.symm]
      simp only [List.map_cons, List.lookup, hbeq]
      exact ih hnodup.2 h

lemma markups_uniform (l : List (String × ℚ))
    (hnodup : (l.map Prod.fst).Nodup) (hpos : ∀ it ∈ l, 0 < it.2) :
    (l.filterMap fun it =>
        (((l.map fun x => (x.1, (6/5 : ℚ) * x.2)).lookup it.1).map
          fun dp => dp / it.2 - 1)) =
      l.map fun _ => (1/5 : ℚ) := by
  have h : ∀ it ∈ l,
      (((l.map fun x => (x.1, (6/5 : ℚ) * x.2)).lookup it.1).map
        fun dp => dp / it.2 - 1) =
        (some ∘ fun _ => (1/5 : ℚ)) it := by
    intro it hit
    rw [lookup_map_scaled l hnodup it hit]
    have hp : it.2 ≠ 0 := ne_of_gt (hpos it hit)
    simp only [Option.map_some, Function.comp]
    field_simp
    ring
  rw [List.filterMap_congr h, List.filterMap_eq_map]

/-- Claim C7: on identical dine-in/delivery item-name sets with delivery
prices uniformly 20% higher, the average markup is exactly `0.20` and
neither the "too low" nor the "too high" penalty branch triggers. -/
theorem c7_uniform_markup (dine_in : List (String × ℚ)) (hne : dine_in ≠ [])
    (hnodup : (dine_in.map Prod.fst).Nodup)
    (hpos : ∀ it ∈ dine_in, 0 < it.2) :
    (compute_pricing_score dine_in
          (dine_in.map fun x => (x.1, (6/5 : ℚ) * x.2))).avg_markup = 1/5 ∧
      (compute_pricing_score dine_in
          (dine_in.map fun x => (x.1, (6/5 : ℚ) * x.2))).too_low = false ∧
      (compute_pricing_score dine_in
          (dine_in.map fun x => (x.1, (6/5 : ℚ) * x.2))).too_high = false := by
  have hmk := markups_uniform dine_in hnodup hpos
  have hlen : dine_in.length ≠ 0 := by
    simpa [List.length_eq_zero] using hne
  have hlenq : ((dine_in.length : ℚ)) ≠ 0 := by
    exact_mod_cast hlen
  have havg : (compute_pricing_score dine_in
      (dine_in.map fun x => (x.1, (6/5 : ℚ) * x.2))).avg_markup = 1/5 := by
    simp only [compute_pricing_score, hmk]
    rw [if_neg (by simpa using hlen)]
    rw [List.map_const', List.sum_replicate, List.length_replicate, nsmul_eq_mul]
    field_simp
    ring
  refine ⟨havg, ?_, ?_⟩
  · have : (compute_pricing_score dine_in
        (dine_in.map fun x => (x.1, (6/5 : ℚ) * x.2))).too_low =
        decide ((compute_pricing_score dine_in
          (dine_in.map fun x => (x.1, (6/5 : ℚ) * x.2))).avg_markup < 10/100) := rfl
    rw [this, havg]
    norm_num
  · have : (compute_pricing_score dine_in
        (dine_in.map fun x => (x.1, (6/5 : ℚ) * x.2))).too_high =
        decide ((compute_pricing_score dine_in
          (dine_in.map fun x => (x.1, (6/5 : ℚ) * x.2))).avg_markup > 35/100) := rfl
    rw [this, havg]
    norm_num

/-- Witness for C7 on the one-item menu `[("Dish", 5)]`. -/
theorem c7_uniform_markup_witness :
    ([("Dish", (5:ℚ))] ≠ []) ∧
      (([("Dish", (5:ℚ))].map Prod.fst).Nodup) ∧
      (∀ it ∈ [("Dish", (5:ℚ))], 0 < it.2) ∧
      ((compute_pricing_score [("Dish", (5:ℚ))]
            ([("Dish", (5:ℚ))].map fun x => (x.1, (6/5 : ℚ) * x.2))).avg_markup = 1/5 ∧
        (compute_pricing_score [("Dish", (5:ℚ))]
            ([("Dish", (5:ℚ))].map fun x => (x.1, (6/5 : ℚ) * x.2))).too_low = false ∧
        (compute_pricing_score [("Dish", (5:ℚ))]
            ([("Dish", (5:ℚ))].map fun x => (x.1, (6/5 : ℚ) * x.2))).too_high = false) :=
  ⟨by decide, by decide, by decide,
    c7_uniform_markup [("Dish", (5:ℚ))] (by decide) (by decide) (by decide)⟩

/-! ## LLM call with fallback (src/app.py, lines 835-854) -/

/-- A chat message of the list passed to the completion endpoint. -/
structure ChatMessage where
  role : String
  content : String
deriving DecidableEq

/-- The chat-completion client, embedded as the observable outcome of
`client.chat.completions.create` per model name: either the returned
message content, or the message of the exception the call raises. -/
structure ChatClient where
  create : String → List ChatMessage → Except String String

/-- The fixed message returned when no API client is configured. -/
def noClientMsg : String :=
  "未配置 OPENAI_API_KEY，无法调用 ChatGPT，请在 Streamlit Secrets 中添加 OPENAI_API_KEY。"

/-- The error string produced when the primary and the fallback model both
fail, from the f-string template in the source. -/
def llmFailMsg (e e2 : String) : String :=
  "调用 ChatGPT 失败。\n主模型错误：" ++ e ++ "\n备用模型错误：" ++ e2

/-- Embedding of `call_llm_safe`: try the primary model, on exception try
the fallback model, on a second exception return the templated error
string; with no client return a fixed message.  The `String` return type
captures that no exception escapes. -/
def call_llm_safe (client : Option ChatClient) (messages : List ChatMessage) :
    String :=
  match client with
  | none => noClientMsg
  | some c =>
    match c.create "gpt-4.1-mini" messages with
    | .ok content => content
    | .error e =>
      match c.create "gpt-4o-mini" messages with
      | .ok content => content
      | .error e2 => llmFailMsg e e2

lemma string_toList_append (a b : String) :
    (a ++ b).toList = a.toList ++ b.toList := rfl

lemma listStartsWith_append (p l r : List Char)
    (h : listStartsWith l p = true) : listStartsWith (l ++ r) p = true := by
  induction p generalizing l with
  | nil =>
    cases l <;> simp [listStartsWith]
  | cons b bs ih =>
    cases l with
    | nil => simp [listStartsWith] at h
    | cons a as =>
      simp only [List.cons_append, listStartsWith, Bool.and_eq_true] at h ⊢
      exact ⟨h.1, ih as h.2⟩

/-- Claim C8: `call_llm_safe` is a total function into strings (no
exception escapes): with no client it returns the fixed message, a
successful primary call returns its content, a failed primary call falls
back to the alternate model, and when both calls fail it returns the
templated error string, which starts with the fixed text
`调用 ChatGPT 失败。`. -/
theorem c8_llm_fallback (client : Option ChatClient)
    (messages : List ChatMessage) :
    (client = none → call_llm_safe client messages = noClientMsg) ∧
      (∀ c s, client = some c →
        c.create "gpt-4.1-mini" messages = .ok s →
        call_llm_safe client messages = s) ∧
      (∀ c e s, client = some c →
        c.create "gpt-4.1-mini" messages = .error e →
        c.create "gpt-4o-mini" messages = .ok s →
        call_llm_safe client messages = s) ∧
      (∀ c e e2, client = some c →
        c.create "gpt-4.1-mini" messages = .error e →
        c.create "gpt-4o-mini" messages = .error e2 →
        call_llm_safe client messages = llmFailMsg e e2 ∧
          listStartsWith (call_llm_safe client messages).toList
            "调用 ChatGPT 失败。".toList = true) := by
  refine ⟨?_, ?_, ?_, ?_⟩
  · intro h
    subst h
    rfl
  · intro c s hc h1
    subst hc
    simp [call_llm_safe, h1]
  · intro c e s hc h1 h2
    subst hc
    simp [call_llm_safe, h1, h2]
  · intro c e e2 hc h1 h2
    subst hc
    have hval : call_llm_safe (some c) messages = llmFailMsg e e2 := by
      simp [call_llm_safe, h1, h2]
    refine ⟨hval, ?_⟩
    rw [hval]
    have hsplit : (llmFailMsg e e2).toList =
        "调用 ChatGPT 失败。\n主模型错误：".toList ++
          (e.toList ++ ("\n备用模型错误：".toList ++ e2.toList)) := by
      simp [llmFailMsg, string_toList_append, List.append_assoc]
    rw [hsplit]
    exact listStartsWith_append _ _ _ (by decide)

/-- Witness for C8: a client whose calls always raise. -/
theorem c8_llm_fallback_witness :
    ((some (ChatClient.mk fun _ _ => Except.error "boom") : Option ChatClient) =
        some (ChatClient.mk fun _ _ => Except.error "boom")) ∧
      ((ChatClient.mk fun _ _ => Except.error "boom").create "gpt-4.1-mini" [] =
        Except.error "boom") ∧
      ((ChatClient.mk fun _ _ => Except.error "boom").create "gpt-4o-mini" [] =
        Except.error "boom") ∧
      (call_llm_safe (some (ChatClient.mk fun _ _ => Except.error "boom")) [] =
          llmFailMsg "boom" "boom" ∧
        listStartsWith
          (call_llm_safe (some (ChatClient.mk fun _ _ => Except.error "boom")) []).toList
          "调用 ChatGPT 失败。".toList = true) :=
  ⟨rfl, rfl, rfl,
    (c8_llm_fallback (some (ChatClient.mk fun _ _ => Except.error "boom")) []).2.2.2
      (ChatClient.mk fun _ _ => Except.error "boom") "boom" "boom" rfl rfl rfl⟩

end App
